import Mathlib

/-!
Shallow embedding of the AutoGrid job-offer capture pipeline
(`src/extension/Data/DataShareService.js`, staged-pipeline version, and
`src/extension/home/home_without_auth.js`), together with theorems settling
the specification claims about it.
-/

namespace AutoGrid

/-! ## Portal classification data (`KNOWN_PORTALS`, DataShareService.js lines 5-11) -/

def KNOWN_PORTALS : List String :=
  ["linkedin", "indeed", "glassdoor", "monster", "ziprecruiter"]

inductive PortalKind where
  | Known
  | Unknown
  deriving Repr, DecidableEq

/-- Does the character list `l` start with the character list `pat`? -/
def startsWithChars : List Char → List Char → Bool
  | _, [] => true
  | [], _ :: _ => false
  | a :: as, b :: bs => a == b && startsWithChars as bs

/-- Does the character list `l` contain `pat` as a contiguous sub-list? -/
def hasSubChars : List Char → List Char → Bool
  | [], pat => pat.isEmpty
  | a :: as, pat => startsWithChars (a :: as) pat || hasSubChars as pat

/-- Modelled from the spec: the repository declares `KNOWN_PORTALS` but contains
no classifier function anywhere in the snapshot (the constant is unused dead code).
Per the spec, classification lower-cases the URL and tests case-insensitive
substring membership against the fixed portal name fragments; any match gives
`Known`, otherwise `Unknown`. -/
def classify (url : String) : PortalKind :=
  if KNOWN_PORTALS.any (fun p => hasSubChars (url.data.map Char.toLower) p.data) then
    PortalKind.Known
  else
    PortalKind.Unknown

/-! ## DOM model and `extractMainContentBlock` (DataShareService.js lines 409-472) -/

/-- A DOM element as seen by the extraction heuristic: the CSS selectors it
matches, the length of its trimmed text content, and its `outerHTML`. -/
structure DomElement where
  sels : List String
  textLen : Nat
  html : String
  deriving Repr, DecidableEq

/-- A document: its elements in document order, and the body's `outerHTML`. -/
structure DomDocument where
  elements : List DomElement
  bodyHTML : String
  deriving Repr, DecidableEq

/-- `document.querySelector`: the first element in document order matching the
selector. -/
def querySelector (d : DomDocument) (sel : String) : Option DomElement :=
  d.elements.find? (fun e => e.sels.contains sel)

/-- `document.querySelectorAll("div, section, article")`: all elements matching
one of those three tag selectors, in document order. -/
def blockScanElements (d : DomDocument) : List DomElement :=
  d.elements.filter
    (fun e => e.sels.contains "div" || e.sels.contains "section" || e.sels.contains "article")

/-- The fixed selector priority list of `extractMainContentBlock`. -/
def jobContentSelectors : List String :=
  [".job-description", "#job-description", ".jobsearch-jobDescriptionText",
   ".description__text", ".job-details", ".job-content", ".job-details-content",
   ".job-overview", ".job-posting", ".job-listing",
   "article", "main", ".content-main", ".main-content",
   ".content", "#content", ".container"]

/-- The selector loop: for each selector in order, take the document's first
match; accept it if its trimmed text length exceeds 200, else continue. -/
def selectorSearch (d : DomDocument) : List String → Option DomElement
  | [] => none
  | s :: rest =>
    match querySelector d s with
    | some e => if 200 < e.textLen then some e else selectorSearch d rest
    | none => selectorSearch d rest

/-- One step of the largest-text-block scan: update the accumulator when the
element's text length exceeds both the running maximum and 300. -/
def scanStep (acc : Nat × Option DomElement) (e : DomElement) : Nat × Option DomElement :=
  if acc.1 < e.textLen ∧ 300 < e.textLen then (e.textLen, some e) else acc

/-- The fallback scan over all `div`/`section`/`article` elements, starting from
`maxTextLength = 0`, `mainContent = null`. -/
def largestBlockScan (elems : List DomElement) : Nat × Option DomElement :=
  elems.foldl scanStep (0, none)

/-- `extractMainContentBlock`: selector priority list first, then largest
`div`/`section`/`article` block over 300 characters, then the document body. -/
def extractMainContentBlock (d : DomDocument) : String :=
  match selectorSearch d jobContentSelectors with
  | some e => e.html
  | none =>
    match (largestBlockScan (blockScanElements d)).2 with
    | some e => e.html
    | none => d.bodyHTML

/-- Specification-side reading of the first rule, following the claim's words:
the first element produced by the selector list whose trimmed text content
exceeds 200 characters. -/
def selectorPickSpec (d : DomDocument) : Option DomElement :=
  (jobContentSelectors.filterMap (querySelector d)).find? (fun e => decide (200 < e.textLen))

/-! ## HTTP model for the staged pipeline (`saveJobOffer`, lines 263-365) -/

/-- The three backend endpoints consumed by the staged pipeline. -/
inductive Endpoint where
  | preparseJobOffer
  | parseJobWithAI
  | save
  deriving Repr, DecidableEq

/-- URL path of each endpoint in the source. -/
def endpointPath : Endpoint → String
  | Endpoint.preparseJobOffer => "/jobs/preparse-job-offer"
  | Endpoint.parseJobWithAI => "/jobs/parse-job-with-ai"
  | Endpoint.save => "/jobs/save"

/-- The JSON fields of a response body that the pipeline reads. -/
structure JsonBody where
  detail : Option String := none
  parsed_text : Option String := none
  parsed_job_data : Option String := none
  deriving Repr, DecidableEq

/-- A fetch response: its HTTP success flag, and its JSON body when
`response.json()` resolves (`none` models a body that fails to parse). -/
structure Resp where
  ok : Bool
  body : Option JsonBody
  deriving Repr, DecidableEq

/-- The JSON fields of a request body sent by the pipeline; `none` models a
field absent from the serialized object. -/
structure ReqBody where
  title : Option String := none
  url : Option String := none
  html_content : Option String := none
  parsed_text : Option String := none
  parsed_job_data : Option String := none
  deriving Repr, DecidableEq

/-- Which in-page extraction function is injected into the active tab:
`extractMainContentBlock` (heuristic) or the full-document serializer. -/
inductive Strategy where
  | heuristic
  | fullDocument
  deriving Repr, DecidableEq

/-- Observable effects of a capture: the in-page extraction call, and each
network request with its endpoint, body, and HTTP outcome. -/
inductive Effect where
  | extractCall (s : Strategy)
  | request (ep : Endpoint) (body : ReqBody) (ok : Bool)
  deriving Repr, DecidableEq

/-- The capture environment: the stored token, the in-page extraction outcome,
and the response each endpoint would give to this capture's requests. -/
structure Env where
  token : Option String
  extraction : Except String String
  preparse : Resp
  aiparse : Resp
  save : Resp
  fallbackSave : Resp
  deriving Repr

/-- JavaScript `a.detail || dflt`: the detail string when present and non-empty,
otherwise the default. -/
def jsOr (s : Option String) (dflt : String) : String :=
  match s with
  | some v => if v = "" then dflt else v
  | none => dflt

/-- The rejection produced when `response.json()` fails to parse. -/
def jsonFailMsg (stage : String) : String :=
  "JSON parse error: " ++ stage

/-- JavaScript truthiness of `localStorage.getItem("autogrid_token")`:
present and non-empty. -/
def tokenPresent (env : Env) : Bool :=
  match env.token with
  | none => false
  | some t => t != ""

/-- `isLoggedIn` (DataShareService.js lines 214-216): double negation of the
stored token value. -/
def isLoggedIn (stored : Option String) : Bool :=
  match stored with
  | none => false
  | some s => s != ""

/-- The body of the fallback save request: `JSON.stringify(\x7b title, url \x7d)`. -/
def fallbackReqBody (title url : String) : ReqBody :=
  { title := some title, url := some url }

/-- The try-block of `saveJobOffer` (lines 267-338): extraction, pre-parse,
AI parse, staged save; returns the trace of effects and the outcome. -/
def stagedAttempt (env : Env) (title url : String) :
    List Effect × Except String JsonBody :=
  match env.extraction with
  | Except.error e => ([Effect.extractCall Strategy.heuristic], Except.error e)
  | Except.ok htmlContent =>
    let fx1 : List Effect :=
      [Effect.extractCall Strategy.heuristic,
       Effect.request Endpoint.preparseJobOffer
         { title := some title, url := some url, html_content := some htmlContent }
         env.preparse.ok]
    match env.preparse.ok, env.preparse.body with
    | false, none => (fx1, Except.error (jsonFailMsg "preparse"))
    | false, some b => (fx1, Except.error (jsOr b.detail "Error pre-parsing job offer"))
    | true, none => (fx1, Except.error (jsonFailMsg "preparse"))
    | true, some pre =>
      let fx2 := fx1 ++
        [Effect.request Endpoint.parseJobWithAI
          { title := some title, url := some url, parsed_text := pre.parsed_text }
          env.aiparse.ok]
      match env.aiparse.ok, env.aiparse.body with
      | false, none => (fx2, Except.error (jsonFailMsg "aiparse"))
      | false, some b => (fx2, Except.error (jsOr b.detail "Error parsing job with AI"))
      | true, none => (fx2, Except.error (jsonFailMsg "aiparse"))
      | true, some ai =>
        let fx3 := fx2 ++
          [Effect.request Endpoint.save
            { title := some title, url := some url, parsed_job_data := ai.parsed_job_data }
            env.save.ok]
        match env.save.ok, env.save.body with
        | false, none => (fx3, Except.error (jsonFailMsg "save"))
        | false, some b => (fx3, Except.error (jsOr b.detail "Error saving job offer"))
        | true, none => (fx3, Except.error (jsonFailMsg "save"))
        | true, some saved => (fx3, Except.ok saved)

/-- `saveJobOffer` (lines 263-365): token guard, the staged attempt, and on any
staged failure the basic fallback save; a fallback failure is rethrown. -/
def saveJobOffer (env : Env) (title url : String) :
    List Effect × Except String JsonBody :=
  if tokenPresent env = false then ([], Except.error "Not authenticated")
  else
    match stagedAttempt env title url with
      | (fx, Except.ok v) => (fx, Except.ok v)
      | (fx, Except.error _) =>
        let fx2 := fx ++
          [Effect.request Endpoint.save (fallbackReqBody title url) env.fallbackSave.ok]
        match env.fallbackSave.ok, env.fallbackSave.body with
        | false, none => (fx2, Except.error (jsonFailMsg "fallback"))
        | false, some b => (fx2, Except.error (jsOr b.detail "Error saving offer"))
        | true, none => (fx2, Except.error (jsonFailMsg "fallback"))
        | true, some b => (fx2, Except.ok b)

/-- The error message thrown when the fallback save fails: a function of the
fallback response alone. -/
def fallbackFailureMsg (r : Resp) : String :=
  match r.ok, r.body with
  | false, none => jsonFailMsg "fallback"
  | false, some b => jsOr b.detail "Error saving offer"
  | true, none => jsonFailMsg "fallback"
  | true, some _ => ""

/-- Is this effect a request to the save endpoint that received an HTTP
success response? -/
def isSuccessfulSaveReq : Effect → Bool
  | Effect.extractCall _ => false
  | Effect.request ep _ ok => decide (ep = Endpoint.save) && ok

/-- Number of save-endpoint requests in the trace that received an HTTP
success response. -/
def successfulSaveRequests (fx : List Effect) : Nat :=
  (fx.filter isSuccessfulSaveReq).length

/-- The four fields of the minimal fallback record named by the spec. -/
structure FallbackRecord where
  position : String
  company : String
  link : String
  status : String
  deriving Repr, DecidableEq

/-- Modelled from the spec: the backend `/jobs/save` endpoint's handling of a
basic request carrying only `title` and `url` is not in the repository snapshot
(the backend lives outside it); per the spec the resulting minimal record has
position the best-effort title or the literal string when none is available,
an empty company, the original URL as link, and status Saved. -/
def backendBasicSave (b : ReqBody) : FallbackRecord :=
  { position :=
      match b.title with
      | some t => if t = "" then "No title available" else t
      | none => "No title available"
  , company := ""
  , link := (b.url).getD ""
  , status := "Saved" }

/-! ## Notification presenter (`showMessage`, home_without_auth.js lines 41-64) -/

inductive MsgKind where
  | info
  | success
  | error
  deriving Repr, DecidableEq

/-- A displayed notification: its text, kind, and the delay in milliseconds
after which an automatic dismissal is scheduled (`none` when it persists
until replaced). -/
structure Shown where
  text : String
  kind : MsgKind
  autoDismissAt : Option Nat
  deriving Repr, DecidableEq

/-- `showMessage`: displays the notification (replacing any existing one) and
schedules automatic dismissal after 2000 ms for success and info kinds. -/
def showMessage (text : String) (kind : MsgKind) : Shown :=
  { text := text
  , kind := kind
  , autoDismissAt :=
      if kind = MsgKind.success ∨ kind = MsgKind.info then some 2000 else none }

/-! ## Concrete environments used by witnesses and counterexamples -/

/-- An environment with no stored token. -/
def envNoToken : Env :=
  { token := none
  , extraction := Except.error "No active tab found"
  , preparse := ⟨false, none⟩
  , aiparse := ⟨false, none⟩
  , save := ⟨false, none⟩
  , fallbackSave := ⟨false, none⟩ }

/-- A token is stored but the in-page extraction fails; the fallback save
would succeed. -/
def envExtractFail : Env :=
  { token := some "tok"
  , extraction := Except.error "No active tab found"
  , preparse := ⟨false, none⟩
  , aiparse := ⟨false, none⟩
  , save := ⟨false, none⟩
  , fallbackSave := ⟨true, some ⟨none, none, none⟩⟩ }

/-- All stages up to the staged save succeed; the staged save responds with an
HTTP success whose body fails to parse; the fallback save succeeds. -/
def envSaveBodyUnparseable : Env :=
  { token := some "tok"
  , extraction := Except.ok "<div>desc</div>"
  , preparse := ⟨true, some ⟨none, some "parsed text", none⟩⟩
  , aiparse := ⟨true, some ⟨none, none, some "ai data"⟩⟩
  , save := ⟨true, none⟩
  , fallbackSave := ⟨true, some ⟨none, none, none⟩⟩ }

/-- Pre-parse succeeds, the AI-parse stage fails, the fallback save succeeds. -/
def envAiFails : Env :=
  { token := some "tok"
  , extraction := Except.ok "<div>desc</div>"
  , preparse := ⟨true, some ⟨none, some "Senior Engineer at Acme, Berlin, ...", none⟩⟩
  , aiparse := ⟨false, some ⟨some "AI service unavailable", none, none⟩⟩
  , save := ⟨false, none⟩
  , fallbackSave := ⟨true, some ⟨none, none, none⟩⟩ }

/-- Every stage succeeds, including the staged save. -/
def envAllOk : Env :=
  { token := some "tok"
  , extraction := Except.ok "<div>desc</div>"
  , preparse := ⟨true, some ⟨none, some "parsed text", none⟩⟩
  , aiparse := ⟨true, some ⟨none, none, some "ai data"⟩⟩
  , save := ⟨true, some ⟨none, none, none⟩⟩
  , fallbackSave := ⟨false, none⟩ }

/-- Pre-parse fails with a detail message and the fallback save also fails
with a different detail message. -/
def envBothFail : Env :=
  { token := some "tok"
  , extraction := Except.ok "<div>desc</div>"
  , preparse := ⟨false, some ⟨some "Pre-parser exploded", none, none⟩⟩
  , aiparse := ⟨false, none⟩
  , save := ⟨false, none⟩
  , fallbackSave := ⟨false, some ⟨some "Database unavailable", none, none⟩⟩ }

/-- A stored (possibly expired) token and an environment where every stage
would fail. -/
def envStaleToken : Env :=
  { token := some "expired.jwt.token"
  , extraction := Except.ok "<html></html>"
  , preparse := ⟨false, some ⟨some "Session expired", none, none⟩⟩
  , aiparse := ⟨false, none⟩
  , save := ⟨false, none⟩
  , fallbackSave := ⟨false, some ⟨some "Session expired", none, none⟩⟩ }

/-! ## Helper lemmas on the pipeline -/

/-- The staged attempt's trace always begins with the heuristic in-page
extraction call. -/
theorem stagedAttempt_trace_head (env : Env) (title url : String) :
    ∃ rest, (stagedAttempt env title url).1
      = Effect.extractCall Strategy.heuristic :: rest := by
  rcases env with ⟨tok, ext, ⟨pok, pbody⟩, ⟨aok, abody⟩, ⟨sok, sbody⟩, fb⟩
  cases ext with
  | error e => exact ⟨[], rfl⟩
  | ok htmlContent =>
    cases pok <;> cases pbody <;> cases aok <;> cases abody <;>
      cases sok <;> cases sbody <;> exact ⟨_, rfl⟩

/-- When a token is present, the capture's trace always begins with the
heuristic in-page extraction call. -/
theorem saveJobOffer_trace_head (env : Env) (title url : String)
    (htok : tokenPresent env = true) :
    (saveJobOffer env title url).1.head?
      = some (Effect.extractCall Strategy.heuristic) := by
  obtain ⟨rest, hr⟩ := stagedAttempt_trace_head env title url
  rcases hsa : stagedAttempt env title url with ⟨fx, r⟩
  rw [hsa] at hr
  simp only at hr
  cases r with
  | ok v => simp [saveJobOffer, htok, hsa, hr]
  | error e =>
    rcases hfb : env.fallbackSave with ⟨fok, fbody⟩
    cases fok <;> cases fbody <;> simp [saveJobOffer, htok, hsa, hr, hfb]

/-- When the staged attempt fails, the capture appends exactly one fallback
save request and its outcome is determined by the fallback response alone. -/
theorem saveJobOffer_fallback_eq (env : Env) (title url : String)
    (htok : tokenPresent env = true)
    (e : String) (hst : (stagedAttempt env title url).2 = Except.error e) :
    (saveJobOffer env title url).1 =
      (stagedAttempt env title url).1 ++
        [Effect.request Endpoint.save (fallbackReqBody title url) env.fallbackSave.ok] ∧
    (saveJobOffer env title url).2 =
      (match env.fallbackSave.ok, env.fallbackSave.body with
       | false, none => Except.error (jsonFailMsg "fallback")
       | false, some b => Except.error (jsOr b.detail "Error saving offer")
       | true, none => Except.error (jsonFailMsg "fallback")
       | true, some b => Except.ok b) := by
  rcases hsa : stagedAttempt env title url with ⟨fx, r⟩
  rw [hsa] at hst
  cases r with
  | ok v => simp at hst
  | error e2 =>
    rcases hfb : env.fallbackSave with ⟨fok, fbody⟩
    cases fok <;> cases fbody <;> simp [saveJobOffer, htok, hsa, hfb]

/-! ## Claim theorems -/

/-- C6: if no authentication token is present in storage when a capture is
triggered, `saveJobOffer` fails with a "Not authenticated" error before any
in-page extraction or network request: the trace of effects is empty and the
pipeline never starts. -/
theorem saveJobOffer_requires_token (env : Env) (title url : String)
    (h : tokenPresent env = false) :
    saveJobOffer env title url = ([], Except.error "Not authenticated") := by
  simp [saveJobOffer, h]

theorem saveJobOffer_requires_token_witness :
    saveJobOffer envNoToken "Senior Engineer" "https://jobs.example/1"
      = ([], Except.error "Not authenticated") :=
  saveJobOffer_requires_token envNoToken "Senior Engineer" "https://jobs.example/1" rfl

/-- C10: the pre-capture authentication guard checks only presence:
`isLoggedIn` returns true for any non-empty stored token string (expired or
malformed included), and a capture carrying such a token starts the pipeline,
beginning with the in-page extraction call. -/
theorem isLoggedIn_presence_only (s : String) (hs : s ≠ "")
    (env : Env) (title url : String) (htok : env.token = some s) :
    isLoggedIn (some s) = true ∧
      (saveJobOffer env title url).1.head?
        = some (Effect.extractCall Strategy.heuristic) := by
  have hp : tokenPresent env = true := by simp [tokenPresent, htok, hs]
  exact ⟨by simp [isLoggedIn, hs], saveJobOffer_trace_head env title url hp⟩

theorem isLoggedIn_presence_only_witness :
    isLoggedIn (some "expired.jwt.token") = true ∧
      (saveJobOffer envStaleToken "Old Job" "https://jobs.example/2").1.head?
        = some (Effect.extractCall Strategy.heuristic) :=
  isLoggedIn_presence_only "expired.jwt.token" (by decide) envStaleToken "Old Job"
    "https://jobs.example/2" rfl

/-- C8 counterexample: an Info notification shown by `showMessage` is scheduled
for automatic dismissal after 2000 ms, contradicting the claim that Info
notifications remain visible until replaced. -/
theorem showMessage_info_auto_dismisses :
    (showMessage "Saving job offer..." MsgKind.info).autoDismissAt = some 2000 := rfl

/-- C8 (amended): Success and Info notifications are scheduled for automatic
dismissal after a fixed 2000 ms interval; only Error notifications persist
until a subsequent notification replaces them. -/
theorem showMessage_dismissal_policy (text : String) :
    (showMessage text MsgKind.success).autoDismissAt = some 2000 ∧
    (showMessage text MsgKind.info).autoDismissAt = some 2000 ∧
    (showMessage text MsgKind.error).autoDismissAt = none :=
  ⟨rfl, rfl, rfl⟩

/-- C9: when the staged pipeline fails and the fallback save also fails, the
error `saveJobOffer` propagates is the fallback save's error, a function of
the fallback response alone; the original stage error is discarded. -/
theorem saveJobOffer_propagates_fallback_error (env : Env) (title url : String)
    (htok : tokenPresent env = true)
    (e : String) (hst : (stagedAttempt env title url).2 = Except.error e)
    (hfb : env.fallbackSave.ok = false) :
    (saveJobOffer env title url).2
      = Except.error (fallbackFailureMsg env.fallbackSave) := by
  obtain ⟨-, h2⟩ := saveJobOffer_fallback_eq env title url htok e hst
  rw [h2]
  cases hb : env.fallbackSave.body <;> simp [fallbackFailureMsg, hfb, hb]

theorem saveJobOffer_propagates_fallback_error_witness :
    (saveJobOffer envBothFail "T" "https://jobs.example/3").2
      = Except.error (fallbackFailureMsg envBothFail.fallbackSave) :=
  saveJobOffer_propagates_fallback_error envBothFail "T" "https://jobs.example/3"
    rfl "Pre-parser exploded" rfl rfl

/-- C1 counterexample: with the in-page extraction failing ("No active tab
found") and a working fallback endpoint, `saveJobOffer` still makes a network
request (the fallback save) and returns a saved record, contradicting the
claim that extraction failure makes no network calls and produces no record. -/
theorem saveJobOffer_extraction_failure_still_saves :
    (saveJobOffer envExtractFail "Job title" "https://jobs.example/4").1
      = [Effect.extractCall Strategy.heuristic,
         Effect.request Endpoint.save (fallbackReqBody "Job title" "https://jobs.example/4") true] ∧
    (saveJobOffer envExtractFail "Job title" "https://jobs.example/4").2
      = Except.ok ⟨none, none, none⟩ :=
  ⟨rfl, rfl⟩

/-- C1 (amended): if in-page extraction fails, the staged pre-parse, enrichment
and staged-save requests are not attempted; the fallback save is attempted
immediately with the title and url, and the capture terminates in failure
exactly when that fallback submission also fails. -/
theorem saveJobOffer_extraction_failure_fallback (env : Env) (title url : String)
    (htok : tokenPresent env = true)
    (e : String) (hext : env.extraction = Except.error e) :
    (saveJobOffer env title url).1
      = [Effect.extractCall Strategy.heuristic,
         Effect.request Endpoint.save (fallbackReqBody title url) env.fallbackSave.ok] ∧
    (env.fallbackSave.ok = false →
      ∃ msg, (saveJobOffer env title url).2 = Except.error msg) ∧
    (∀ b, env.fallbackSave = ⟨true, some b⟩ →
      (saveJobOffer env title url).2 = Except.ok b) := by
  have hst : stagedAttempt env title url
      = ([Effect.extractCall Strategy.heuristic], Except.error e) := by
    unfold stagedAttempt
    rw [hext]
  obtain ⟨h1, h2⟩ := saveJobOffer_fallback_eq env title url htok e (by rw [hst])
  refine ⟨by simp [h1, hst], ?_, ?_⟩
  · intro hfb
    rw [h2, hfb]
    cases env.fallbackSave.body with
    | none => exact ⟨_, rfl⟩
    | some b => exact ⟨_, rfl⟩
  · intro b hb
    have hok : env.fallbackSave.ok = true := by rw [hb]
    have hbody : env.fallbackSave.body = some b := by rw [hb]
    rw [h2, hok, hbody]

theorem saveJobOffer_extraction_failure_fallback_witness :
    (saveJobOffer envExtractFail "T2" "https://jobs.example/5").1
      = [Effect.extractCall Strategy.heuristic,
         Effect.request Endpoint.save (fallbackReqBody "T2" "https://jobs.example/5")
           envExtractFail.fallbackSave.ok] :=
  (saveJobOffer_extraction_failure_fallback envExtractFail "T2" "https://jobs.example/5"
    rfl "No active tab found" rfl).1

/-- C2 (spec-modelled backend): whenever a stage of the staged pipeline fails,
the fallback save submits exactly the basic title-and-url body; the backend's
resulting record is the minimal record with best-effort position, empty
company, the original url as link and status Saved; and if the fallback
submission also fails, the capture ends in failure (`saveJobOffer` throws). -/
theorem fallback_minimal_record (env : Env) (title url : String)
    (htok : tokenPresent env = true)
    (e : String) (hst : (stagedAttempt env title url).2 = Except.error e) :
    (saveJobOffer env title url).1
      = (stagedAttempt env title url).1 ++
        [Effect.request Endpoint.save (fallbackReqBody title url) env.fallbackSave.ok] ∧
    backendBasicSave (fallbackReqBody title url)
      = ⟨if title = "" then "No title available" else title, "", url, "Saved"⟩ ∧
    (env.fallbackSave.ok = false →
      ∃ msg, (saveJobOffer env title url).2 = Except.error msg) := by
  obtain ⟨h1, h2⟩ := saveJobOffer_fallback_eq env title url htok e hst
  refine ⟨h1, rfl, ?_⟩
  intro hfb
  rw [h2, hfb]
  cases env.fallbackSave.body with
  | none => exact ⟨_, rfl⟩
  | some b => exact ⟨_, rfl⟩

theorem fallback_minimal_record_witness :
    backendBasicSave (fallbackReqBody "Data Engineer" "https://jobs.example/6")
      = ⟨if "Data Engineer" = "" then "No title available" else "Data Engineer", "",
         "https://jobs.example/6", "Saved"⟩ :=
  (fallback_minimal_record envBothFail "Data Engineer" "https://jobs.example/6"
    rfl "Pre-parser exploded" rfl).2.1

/-- C5 counterexample: pre-parse succeeds, the AI-parse stage fails, the
fallback save succeeds, yet the fallback submission carries only the capture's
own (here empty) title, and the resulting record's position is the literal
"No title available", not a title taken from the pre-parse result. -/
theorem fallback_position_ignores_preparse :
    envAiFails.preparse.ok = true ∧
    envAiFails.aiparse.ok = false ∧
    (saveJobOffer envAiFails "" "https://jobs.example/7").1
      = [Effect.extractCall Strategy.heuristic,
         Effect.request Endpoint.preparseJobOffer
           ⟨some "", some "https://jobs.example/7", some "<div>desc</div>", none, none⟩ true,
         Effect.request Endpoint.parseJobWithAI
           ⟨some "", some "https://jobs.example/7", none,
            some "Senior Engineer at Acme, Berlin, ...", none⟩ false,
         Effect.request Endpoint.save (fallbackReqBody "" "https://jobs.example/7") true] ∧
    (saveJobOffer envAiFails "" "https://jobs.example/7").2 = Except.ok ⟨none, none, none⟩ ∧
    (backendBasicSave (fallbackReqBody "" "https://jobs.example/7")).position
      = "No title available" :=
  ⟨rfl, rfl, rfl, rfl, rfl⟩

/-- C5 (amended): when the AI-parse stage fails after a successful pre-parse,
the fallback submission carries the capture request's own title and url,
ignoring the pre-parse result, so the (spec-modelled) fallback record's
position is the request title when non-empty and "No title available"
otherwise. -/
theorem fallback_position_from_request_title (env : Env) (title url : String)
    (htok : tokenPresent env = true)
    (h : String) (hext : env.extraction = Except.ok h)
    (pre : JsonBody) (hpre : env.preparse = ⟨true, some pre⟩)
    (hai : env.aiparse.ok = false) :
    (saveJobOffer env title url).1
      = [Effect.extractCall Strategy.heuristic,
         Effect.request Endpoint.preparseJobOffer
           ⟨some title, some url, some h, none, none⟩ true,
         Effect.request Endpoint.parseJobWithAI
           ⟨some title, some url, none, pre.parsed_text, none⟩ false,
         Effect.request Endpoint.save (fallbackReqBody title url) env.fallbackSave.ok] ∧
    (backendBasicSave (fallbackReqBody title url)).position
      = (if title = "" then "No title available" else title) := by
  have hst : ∃ e2, stagedAttempt env title url
      = ([Effect.extractCall Strategy.heuristic,
          Effect.request Endpoint.preparseJobOffer
            ⟨some title, some url, some h, none, none⟩ true,
          Effect.request Endpoint.parseJobWithAI
            ⟨some title, some url, none, pre.parsed_text, none⟩ false],
         Except.error e2) := by
    cases habody : env.aiparse.body with
    | none =>
      refine ⟨jsonFailMsg "aiparse", ?_⟩
      simp [stagedAttempt, hext, hpre, hai, habody]
    | some b =>
      refine ⟨jsOr b.detail "Error parsing job with AI", ?_⟩
      simp [stagedAttempt, hext, hpre, hai, habody]
  obtain ⟨e2, hst⟩ := hst
  obtain ⟨h1, -⟩ := saveJobOffer_fallback_eq env title url htok e2 (by rw [hst])
  exact ⟨by simp [h1, hst], rfl⟩

theorem fallback_position_from_request_title_witness :
    (backendBasicSave (fallbackReqBody "Backend Dev" "https://jobs.example/8")).position
      = (if "Backend Dev" = "" then "No title available" else "Backend Dev") :=
  (fallback_position_from_request_title envAiFails "Backend Dev" "https://jobs.example/8"
    rfl "<div>desc</div>" rfl
    ⟨none, some "Senior Engineer at Acme, Berlin, ...", none⟩ rfl rfl).2

/-- C7 counterexample: a URL classified Known (linkedin) and a URL classified
Unknown are captured with the same heuristic in-page extraction strategy: the
classification result does not select the extraction strategy. -/
theorem classify_does_not_select_strategy :
    classify "https://www.linkedin.com/jobs/view/123" = PortalKind.Known ∧
    classify "https://obscure-startup.example.com/careers/42" = PortalKind.Unknown ∧
    (saveJobOffer envStaleToken "T" "https://www.linkedin.com/jobs/view/123").1.head?
      = some (Effect.extractCall Strategy.heuristic) ∧
    (saveJobOffer envStaleToken "T" "https://obscure-startup.example.com/careers/42").1.head?
      = some (Effect.extractCall Strategy.heuristic) :=
  ⟨by decide, by decide, rfl, rfl⟩

/-- C7 (amended): classification (spec-modelled over the repository's unused
`KNOWN_PORTALS` constant) returns Known exactly when the lower-cased URL
contains one of the five fragments, but the capture never consults it:
whenever a token is present, every capture begins with the same heuristic
extraction strategy regardless of the URL's classification. -/
theorem classify_fragments_strategy_fixed (url : String) :
    (classify url = PortalKind.Known ↔
      (KNOWN_PORTALS.any fun p => hasSubChars (url.data.map Char.toLower) p.data) = true) ∧
    (∀ env title, tokenPresent env = true →
      (saveJobOffer env title url).1.head?
        = some (Effect.extractCall Strategy.heuristic)) := by
  constructor
  · unfold classify
    by_cases hc :
        (KNOWN_PORTALS.any fun p => hasSubChars (url.data.map Char.toLower) p.data) = true
    · simp [hc]
    · simp [hc]
  · intro env title htok
    exact saveJobOffer_trace_head env title url htok

theorem classify_fragments_strategy_fixed_witness :
    (saveJobOffer envStaleToken "T" "https://indeed.com/viewjob?jk=1").1.head?
      = some (Effect.extractCall Strategy.heuristic) :=
  (classify_fragments_strategy_fixed "https://indeed.com/viewjob?jk=1").2
    envStaleToken "T" rfl

/-- C4 counterexample: the staged save returns HTTP success with an unparseable
body and the fallback save then also succeeds: the capture returns normally
while two save-endpoint requests received success responses. -/
theorem saveJobOffer_two_successful_saves :
    (saveJobOffer envSaveBodyUnparseable "T" "https://jobs.example/9").2
      = Except.ok ⟨none, none, none⟩ ∧
    successfulSaveRequests (saveJobOffer envSaveBodyUnparseable "T" "https://jobs.example/9").1
      = 2 :=
  ⟨rfl, rfl⟩

/-- C4 (amended): every capture that returns normally has made exactly one
save-endpoint request that received a success response, except when the staged
save answered with a success status whose body failed to parse: then the
fallback issues a second save request and exactly two save-endpoint requests
received success responses. -/
theorem saveJobOffer_successful_save_count (env : Env) (title url : String)
    (r : JsonBody) (hr : (saveJobOffer env title url).2 = Except.ok r) :
    successfulSaveRequests (saveJobOffer env title url).1 = 1 ∨
      (env.save.ok = true ∧ env.save.body = none ∧
        successfulSaveRequests (saveJobOffer env title url).1 = 2) := by
  rcases env with ⟨tok, ext, ⟨pok, pbody⟩, ⟨aok, abody⟩, ⟨sok, sbody⟩, ⟨fok, fbody⟩⟩
  cases tok with
  | none => simp [saveJobOffer, tokenPresent] at hr
  | some t =>
    by_cases ht : t = ""
    · simp [saveJobOffer, tokenPresent, ht] at hr
    · cases ext <;> cases pok <;> cases pbody <;> cases aok <;> cases abody <;>
        cases sok <;> cases sbody <;> cases fok <;> cases fbody <;>
        simp_all [saveJobOffer, stagedAttempt, tokenPresent, successfulSaveRequests,
          isSuccessfulSaveReq, fallbackReqBody]

theorem saveJobOffer_successful_save_count_witness :
    successfulSaveRequests (saveJobOffer envAllOk "T" "https://jobs.example/10").1 = 1 ∨
      (envAllOk.save.ok = true ∧ envAllOk.save.body = none ∧
        successfulSaveRequests (saveJobOffer envAllOk "T" "https://jobs.example/10").1 = 2) :=
  saveJobOffer_successful_save_count envAllOk "T" "https://jobs.example/10"
    ⟨none, none, none⟩ rfl

/-! ## Lemmas for the content-extraction heuristic -/

/-- The selector loop computes the first selector-produced element whose
trimmed text length exceeds 200 characters. -/
theorem selectorSearch_eq_find (d : DomDocument) (sels : List String) :
    selectorSearch d sels
      = (sels.filterMap (querySelector d)).find? (fun e => decide (200 < e.textLen)) := by
  induction sels with
  | nil => rfl
  | cons s rest ih =>
    simp only [selectorSearch, List.filterMap_cons]
    cases hq : querySelector d s with
    | none => simpa using ih
    | some e =>
      by_cases he : 200 < e.textLen
      · simp [List.find?, he]
      · simp [List.find?, he, ih]

/-- Invariant of the largest-block fold: either the accumulator passes through
unchanged, or the result holds an element of the scanned list whose text
length exceeds 300; every scanned element is bounded by the final running
maximum or by 300; and the running maximum never decreases. -/
theorem scanLoop_spec (elems : List DomElement) :
    ∀ (n : Nat) (o : Option DomElement),
      ((elems.foldl scanStep (n, o)) = (n, o) ∨
        ∃ m, (elems.foldl scanStep (n, o)).2 = some m ∧ m ∈ elems ∧
          (elems.foldl scanStep (n, o)).1 = m.textLen ∧ 300 < m.textLen) ∧
      (∀ e ∈ elems, e.textLen ≤ (elems.foldl scanStep (n, o)).1 ∨ e.textLen ≤ 300) ∧
      n ≤ (elems.foldl scanStep (n, o)).1 := by
  induction elems with
  | nil =>
    intro n o
    exact ⟨Or.inl rfl, by simp, Nat.le_refl n⟩
  | cons e rest ih =>
    intro n o
    simp only [List.foldl_cons]
    by_cases hc : n < e.textLen ∧ 300 < e.textLen
    · rw [scanStep, if_pos hc]
      obtain ⟨ha, hb, hn⟩ := ih e.textLen (some e)
      refine ⟨Or.inr ?_, ?_, ?_⟩
      · rcases ha with heq | ⟨m, hm2, hmem, hm1, hm300⟩
        · exact ⟨e, by rw [heq], List.mem_cons_self e rest, by rw [heq], hc.2⟩
        · exact ⟨m, hm2, List.mem_cons_of_mem e hmem, hm1, hm300⟩
      · intro x hx
        rcases List.mem_cons.mp hx with hxe | hx2
        · exact Or.inl (hxe ▸ hn)
        · exact hb x hx2
      · exact Nat.le_trans (Nat.le_of_lt hc.1) hn
    · rw [scanStep, if_neg hc]
      obtain ⟨ha, hb, hn⟩ := ih n o
      refine ⟨?_, ?_, hn⟩
      · rcases ha with heq | ⟨m, hm2, hmem, hm1, hm300⟩
        · exact Or.inl heq
        · exact Or.inr ⟨m, hm2, List.mem_cons_of_mem e hmem, hm1, hm300⟩
      · intro x hx
        rcases List.mem_cons.mp hx with hxe | hx2
        · rcases Decidable.not_and_iff_or_not.mp hc with hle | hle
          · exact Or.inl (hxe ▸ Nat.le_trans (Nat.le_of_not_lt hle) hn)
          · exact Or.inr (hxe ▸ Nat.le_of_not_lt hle)
        · exact hb x hx2

/-- When the largest-block scan returns no element, every scanned element has
trimmed text length at most 300. -/
theorem largestBlockScan_none (elems : List DomElement)
    (h : (largestBlockScan elems).2 = none) :
    ∀ e ∈ elems, e.textLen ≤ 300 := by
  obtain ⟨ha, hb, -⟩ := scanLoop_spec elems 0 none
  have h2 : (elems.foldl scanStep (0, none)).2 = none := h
  intro x hx
  rcases ha with heq | ⟨m, hm2, -, -, -⟩
  · rcases hb x hx with h1 | h1
    · rw [heq] at h1
      exact Nat.le_trans h1 (Nat.zero_le 300)
    · exact h1
  · rw [h2] at hm2
    cases hm2

/-- When the largest-block scan returns an element, it is a member of the
scanned list, has trimmed text length over 300, and no scanned element has a
larger trimmed text length. -/
theorem largestBlockScan_some (elems : List DomElement) (m : DomElement)
    (h : (largestBlockScan elems).2 = some m) :
    m ∈ elems ∧ 300 < m.textLen ∧ ∀ e ∈ elems, e.textLen ≤ m.textLen := by
  obtain ⟨ha, hb, -⟩ := scanLoop_spec elems 0 none
  have h2 : (elems.foldl scanStep (0, none)).2 = some m := h
  rcases ha with heq | ⟨m2, hm2, hmem, hm1, hm300⟩
  · rw [heq] at h2
    cases h2
  · rw [h2] at hm2
    cases hm2
    refine ⟨hmem, hm300, ?_⟩
    intro x hx
    rcases hb x hx with h1 | h1
    · rw [hm1] at h1
      exact h1
    · exact Nat.le_trans h1 (Nat.le_of_lt hm300)

/-- C3: `extractMainContentBlock` follows the fixed priority rules: it returns
the html of the first selector-produced element whose trimmed text exceeds 200
characters; failing that, the html of a `div`/`section`/`article` element of
maximal trimmed text length provided it exceeds 300 characters; failing that,
the serialized document body. -/
theorem extractMainContentBlock_priority (d : DomDocument) :
    (∀ e, selectorPickSpec d = some e → extractMainContentBlock d = e.html) ∧
    (selectorPickSpec d = none →
      (∃ m ∈ blockScanElements d, 300 < m.textLen ∧
        (∀ x ∈ blockScanElements d, x.textLen ≤ m.textLen) ∧
        extractMainContentBlock d = m.html) ∨
      ((∀ x ∈ blockScanElements d, x.textLen ≤ 300) ∧
        extractMainContentBlock d = d.bodyHTML)) := by
  have hsp : selectorSearch d jobContentSelectors = selectorPickSpec d :=
    selectorSearch_eq_find d jobContentSelectors
  constructor
  · intro e he
    unfold extractMainContentBlock
    rw [hsp, he]
  · intro hnone
    unfold extractMainContentBlock
    rw [hsp, hnone]
    cases hscan : (largestBlockScan (blockScanElements d)).2 with
    | some m =>
      obtain ⟨hmem, h300, hmax⟩ := largestBlockScan_some _ m hscan
      exact Or.inl ⟨m, hmem, h300, hmax, rfl⟩
    | none =>
      exact Or.inr ⟨largestBlockScan_none _ hscan, rfl⟩

/-- A one-element document whose single element matches the first selector in
the priority list and carries more than 200 characters of text. -/
def docSelectorHit : DomDocument :=
  { elements := [⟨[".job-description", "div"], 250, "<div>JD</div>"⟩]
  , bodyHTML := "<body>all</body>" }

theorem extractMainContentBlock_priority_witness :
    extractMainContentBlock docSelectorHit = "<div>JD</div>" :=
  (extractMainContentBlock_priority docSelectorHit).1
    ⟨[".job-description", "div"], 250, "<div>JD</div>"⟩ (by decide)

end AutoGrid
